import Mathlib

/-!
Verification of the PodiumJS WebGPU convenience layer against its
natural-language specification.

The development shallowly embeds the library's core classes
(`UniformManager`, `ShaderManager`, `TextureManager`, `PostProcessor`,
`Podium`) as pure Lean functions.  JavaScript `Map` objects become
association lists with insertion-order-preserving `set` and `get`
(`jsMapSet` / `jsMapGet`), native GPU handles become natural numbers,
the GPU device becomes an oracle record of handle-producing functions
(`Option Nat`, `none` modelling a thrown exception), and `Float32Array`
contents become rational-valued vectors (all float operations appearing
in the verified code paths - multiplication by literal 1 and 0,
addition of 0, copying - are exact in IEEE 754, so ℚ is a faithful
carrier for the equalities proved here).
-/

/-- Insertion-order-preserving update, mirroring JavaScript `Map.set`:
an existing key keeps its position and gets the new value, a new key is
appended at the end. -/
def jsMapSet {α : Type} (m : List (String × α)) (k : String) (v : α) :
    List (String × α) :=
  match m with
  | [] => [(k, v)]
  | (k', v') :: rest =>
    if k' = k then (k, v) :: rest else (k', v') :: jsMapSet rest k v

/-- Mirrors JavaScript `Map.get`: the value stored under the key, or
`none` when absent. -/
def jsMapGet {α : Type} (m : List (String × α)) (k : String) : Option α :=
  match m with
  | [] => none
  | (k', v') :: rest => if k' = k then some v' else jsMapGet rest k

/-! ## UniformManager: matrices (src/src/core/UniformManager.ts) -/

/-- The sixteen entries of the literal
`new Float32Array([1,0,0,0, 0,1,0,0, 0,0,1,0, 0,0,0,1])` in
`UniformManager.createIdentityMatrix`. -/
def UniformManager.identityEntries : List ℚ :=
  [1, 0, 0, 0,
   0, 1, 0, 0,
   0, 0, 1, 0,
   0, 0, 0, 1]

/-- `UniformManager.createIdentityMatrix` as a vector of 16 entries. -/
def UniformManager.createIdentityMatrix : Fin 16 → ℚ := fun k =>
  UniformManager.identityEntries.getD (k : ℕ) 0

/-- `UniformManager.multiplyMatrices`: entry `i*4+j` of the result is
`a[i*4+0]*b[0*4+j] + a[i*4+1]*b[1*4+j] + a[i*4+2]*b[2*4+j] + a[i*4+3]*b[3*4+j]`,
exactly as the source loop computes it. -/
def UniformManager.multiplyMatrices (a b : Fin 16 → ℚ) : Fin 16 → ℚ :=
  fun idx =>
    a ⟨(idx : ℕ) / 4 * 4 + 0, by have h := idx.isLt; omega⟩ *
      b ⟨0 * 4 + (idx : ℕ) % 4, by have h := idx.isLt; omega⟩ +
    a ⟨(idx : ℕ) / 4 * 4 + 1, by have h := idx.isLt; omega⟩ *
      b ⟨1 * 4 + (idx : ℕ) % 4, by have h := idx.isLt; omega⟩ +
    a ⟨(idx : ℕ) / 4 * 4 + 2, by have h := idx.isLt; omega⟩ *
      b ⟨2 * 4 + (idx : ℕ) % 4, by have h := idx.isLt; omega⟩ +
    a ⟨(idx : ℕ) / 4 * 4 + 3, by have h := idx.isLt; omega⟩ *
      b ⟨3 * 4 + (idx : ℕ) % 4, by have h := idx.isLt; omega⟩

/-! ## UniformManager: uniform data serialization -/

/-- The `UniformData` interface: optional matrix, time, resolution and
mouse position fields plus arbitrary further numeric keys (the index
signature used for effect options such as `intensity`). -/
structure UniformData where
  mvpMatrix : Option (Fin 16 → ℚ)
  time : Option ℚ
  resolution : Option (ℚ × ℚ)
  mousePosition : Option (ℚ × ℚ)
  effectOptions : List (String × ℚ)

/-- `UniformManager.serializeUniformData`: a fixed 96-byte buffer viewed
as 24 float slots.  Slots 0-15 receive `data.mvpMatrix` when it is a
`Float32Array`, else the identity matrix; slot 16 receives `data.time`
when it is a number (the `ArrayBuffer` is zero-initialized, so the slot
stays 0 otherwise); slots 17-23 stay 0.  No other field of `data` is
read. -/
def UniformManager.serializeUniformData (data : UniformData) : Fin 24 → ℚ :=
  fun k =>
    if h : (k : ℕ) < 16 then
      match data.mvpMatrix with
      | some m => m ⟨(k : ℕ), h⟩
      | none => UniformManager.createIdentityMatrix ⟨(k : ℕ), h⟩
    else if (k : ℕ) = 16 then
      match data.time with
      | some t => t
      | none => 0
    else 0

/-- `UniformManager.updateUniformBuffer`: fails (returning `false`,
writing nothing) when the label has no buffer or the device is absent;
otherwise serializes `data` and writes the serialized bytes to the
queue, returning `true`.  The result pairs the returned boolean with
the bytes written (if any). -/
def UniformManager.updateUniformBuffer (devicePresent : Bool)
    (uniformBuffers : List (String × Nat)) (bufferLabel : String)
    (data : UniformData) : Bool × Option (Fin 24 → ℚ) :=
  match jsMapGet uniformBuffers bufferLabel, devicePresent with
  | some _, true => (true, some (UniformManager.serializeUniformData data))
  | _, _ => (false, none)

/-- A `UniformData` value supplying every kind of field: no matrix,
time 1, a resolution, a mouse position and an `intensity` effect
option.  Used as the failing input for the serialization claim. -/
def uniformDataAllFields : UniformData :=
  { mvpMatrix := none
    time := some 1
    resolution := some (800, 600)
    mousePosition := some (100, 200)
    effectOptions := [("intensity", 2)] }

/-- The same value with resolution, mouse position and effect options
removed. -/
def uniformDataTimeOnly : UniformData :=
  { mvpMatrix := none
    time := some 1
    resolution := none
    mousePosition := none
    effectOptions := [] }

/-! ## Claim theorems (first group) -/

/-- C10: `createIdentityMatrix` is a two-sided identity for
`multiplyMatrices`: for every 16-entry matrix `m`, multiplying by the
identity on either side returns `m` exactly. -/
theorem c10_identity_matrix_two_sided (m : Fin 16 → ℚ) :
    UniformManager.multiplyMatrices UniformManager.createIdentityMatrix m = m ∧
    UniformManager.multiplyMatrices m UniformManager.createIdentityMatrix = m := by
  constructor <;> funext k <;> fin_cases k <;>
    simp [UniformManager.multiplyMatrices, UniformManager.createIdentityMatrix,
      UniformManager.identityEntries]

/-- C1: the bytes `updateUniformBuffer` writes are NOT a function of all
supplied fields.  At the concrete input `uniformDataAllFields` (which
supplies time, resolution, mouse position and an `intensity` effect
option) the serialized bytes coincide with those of
`uniformDataTimeOnly` (which supplies only time): resolution, mouse
position and effect-option keys are discarded by
`serializeUniformData`, and with a present device the queue write is
identical for both inputs. -/
theorem c1_serialization_drops_supplied_fields :
    uniformDataAllFields.resolution = some (800, 600) ∧
    uniformDataTimeOnly.resolution = none ∧
    uniformDataAllFields.effectOptions = [("intensity", 2)] ∧
    uniformDataTimeOnly.effectOptions = [] ∧
    (∀ k, UniformManager.serializeUniformData uniformDataAllFields k =
      UniformManager.serializeUniformData uniformDataTimeOnly k) ∧
    UniformManager.updateUniformBuffer true [("blur_uniforms", 5)]
        "blur_uniforms" uniformDataAllFields =
      UniformManager.updateUniformBuffer true [("blur_uniforms", 5)]
        "blur_uniforms" uniformDataTimeOnly := by
  refine ⟨rfl, rfl, rfl, rfl, ?_, ?_⟩
  · intro k
    fin_cases k <;> rfl
  · show (true, some (UniformManager.serializeUniformData uniformDataAllFields)) =
      (true, some (UniformManager.serializeUniformData uniformDataTimeOnly))
    have h : ∀ k, UniformManager.serializeUniformData uniformDataAllFields k =
        UniformManager.serializeUniformData uniformDataTimeOnly k := by
      intro k; fin_cases k <;> rfl
    rw [funext h]

/-! ## PostProcessor: render targets and the post-processing chain
(src/src/core/PostProcessor.ts) -/

/-- The textures a post-processing render pass can read or write: the
main scene render target and the two temporary targets created by
`createRenderTargets`, plus the canvas texture view passed to
`applyPostProcessing` as `finalTarget`. -/
inductive Target : Type
  | mainRenderTarget : Target
  | tempTarget : Nat → Target
  | canvas : Target
deriving DecidableEq

/-- The `tempTargets` array built by `createRenderTargets`: the loop
`for (let i = 0; i < 2; i++)` pushes exactly two temporary render
targets. -/
def PostProcessor.tempTargets : List Target :=
  [Target.tempTarget 0, Target.tempTarget 1]

/-- A `PostProcessPass` as far as pass selection is concerned: its id
and its `enabled` flag. -/
structure PostProcessPass where
  id : String
  enabled : Bool
deriving DecidableEq

/-- One render pass encoded by `applyPostProcessing` or
`copyToFinalTarget`: its descriptor label, the id of the
post-processing pass it draws (empty for the plain copy), the texture
it samples and the texture it renders into. -/
structure RenderPassRec where
  label : String
  passId : String
  input : Target
  output : Target
deriving DecidableEq

/-- The `for (let i = 0; i < enabledPasses.length; i++)` loop body of
`applyPostProcessing`: on the last pass the output is the canvas and
`currentInput` is left unchanged; otherwise the output is
`tempTargets[i % tempTargets.length]`, which becomes the next
`currentInput`.  The modulo keeps the index in range, so the `getD`
default is never reached. -/
def PostProcessor.applyPasses :
    List PostProcessPass → Target → Nat → Nat → List RenderPassRec
  | [], _, _, _ => []
  | pass :: rest, currentInput, i, n =>
    if i = n - 1 then
      { label := "postprocess_final_" ++ pass.id, passId := pass.id,
        input := currentInput, output := Target.canvas } ::
        PostProcessor.applyPasses rest currentInput (i + 1) n
    else
      let currentOutput := PostProcessor.tempTargets.getD
        (i % PostProcessor.tempTargets.length) (Target.tempTarget 0)
      { label := "postprocess_" ++ pass.id, passId := pass.id,
        input := currentInput, output := currentOutput } ::
        PostProcessor.applyPasses rest currentOutput (i + 1) n

/-- `PostProcessor.applyPostProcessing`: filter the passes down to the
enabled ones; when none is enabled, `copyToFinalTarget` encodes a single
render pass sampling the scene render target into the canvas; otherwise
run the chain starting from the scene render target. -/
def PostProcessor.applyPostProcessing (passes : List PostProcessPass) :
    List RenderPassRec :=
  let enabledPasses := passes.filter (fun pass => pass.enabled)
  if enabledPasses.length = 0 then
    [{ label := "copy_to_final", passId := "",
       input := Target.mainRenderTarget, output := Target.canvas }]
  else
    PostProcessor.applyPasses enabledPasses Target.mainRenderTarget 0
      enabledPasses.length

/-- A list of render passes forms a linear chain from a starting
texture: each pass reads the texture the previous one wrote. -/
def chainedFrom : Target → List RenderPassRec → Prop
  | _, [] => True
  | t, r :: rs => r.input = t ∧ chainedFrom r.output rs

theorem applyPasses_map_passId (ps : List PostProcessPass) (t : Target)
    (i n : Nat) :
    (PostProcessor.applyPasses ps t i n).map RenderPassRec.passId =
      ps.map PostProcessPass.id := by
  induction ps generalizing t i with
  | nil => rfl
  | cons pass rest ih =>
    unfold PostProcessor.applyPasses
    by_cases h : i = n - 1 <;> simp [h, ih]

theorem applyPasses_length (ps : List PostProcessPass) (t : Target)
    (i n : Nat) :
    (PostProcessor.applyPasses ps t i n).length = ps.length := by
  induction ps generalizing t i with
  | nil => rfl
  | cons pass rest ih =>
    unfold PostProcessor.applyPasses
    by_cases h : i = n - 1 <;> simp [h, ih]

theorem applyPasses_chained (ps : List PostProcessPass) (t : Target)
    (i n : Nat) (hn : n = i + ps.length) :
    chainedFrom t (PostProcessor.applyPasses ps t i n) := by
  induction ps generalizing t i with
  | nil => trivial
  | cons pass rest ih =>
    unfold PostProcessor.applyPasses
    by_cases h : i = n - 1
    · have hrest : rest = [] := by
        have : rest.length = 0 := by
          simp [List.length_cons] at hn
          omega
        exact List.eq_nil_of_length_eq_zero this
      subst hrest
      simp [h, chainedFrom]
    · have hn2 : n = (i + 1) + rest.length := by
        simp [List.length_cons] at hn
        omega
      simp only [h, if_false]
      exact ⟨rfl, ih _ _ hn2⟩

theorem tempTargets_getD (i : Nat) :
    PostProcessor.tempTargets.getD (i % PostProcessor.tempTargets.length)
      (Target.tempTarget 0) = Target.tempTarget (i % 2) := by
  rcases Nat.mod_two_eq_zero_or_one i with h2 | h2 <;>
    (show PostProcessor.tempTargets.getD (i % 2) (Target.tempTarget 0) =
        Target.tempTarget (i % 2)) <;> rw [h2] <;> rfl

theorem getLast?_cons_of_ne_nil {α : Type} (a : α) {l : List α} (h : l ≠ []) :
    (a :: l).getLast? = l.getLast? := by
  cases l with
  | nil => exact absurd rfl h
  | cons b bs => exact List.getLast?_cons_cons

theorem applyPasses_ne_nil (ps : List PostProcessPass) (t : Target) (i n : Nat)
    (hps : ps ≠ []) : PostProcessor.applyPasses ps t i n ≠ [] := by
  intro hc
  have hlen := applyPasses_length ps t i n
  rw [hc] at hlen
  exact hps (List.eq_nil_of_length_eq_zero hlen.symm)

theorem applyPasses_getLast?_canvas :
    ∀ (ps : List PostProcessPass) (t : Target) (i n : Nat),
    n = i + ps.length → ps ≠ [] →
    ∃ r, (PostProcessor.applyPasses ps t i n).getLast? = some r ∧
      r.output = Target.canvas := by
  intro ps
  induction ps with
  | nil => intro t i n _ hps; exact absurd rfl hps
  | cons pass rest ih =>
    intro t i n hn _
    cases rest with
    | nil =>
      have hi : i = n - 1 := by
        simp only [List.length_cons, List.length_nil] at hn; omega
      refine ⟨{ label := "postprocess_final_" ++ pass.id, passId := pass.id,
                input := t, output := Target.canvas }, ?_, rfl⟩
      rw [PostProcessor.applyPasses, if_pos hi]
      rfl
    | cons pass2 rs =>
      have hi : ¬ i = n - 1 := by simp only [List.length_cons] at hn; omega
      have hn2 : n = (i + 1) + (pass2 :: rs).length := by
        simp only [List.length_cons] at hn ⊢; omega
      obtain ⟨r, hr, hout⟩ :=
        ih (PostProcessor.tempTargets.getD
          (i % PostProcessor.tempTargets.length) (Target.tempTarget 0))
          (i + 1) n hn2 (List.cons_ne_nil pass2 rs)
      refine ⟨r, ?_, hout⟩
      unfold PostProcessor.applyPasses
      rw [if_neg hi,
        getLast?_cons_of_ne_nil _ (applyPasses_ne_nil _ _ _ _ (List.cons_ne_nil pass2 rs))]
      exact hr

theorem applyPasses_input_ne_output :
    ∀ (ps : List PostProcessPass) (t : Target) (i n : Nat),
    n = i + ps.length → t ≠ Target.canvas → t ≠ Target.tempTarget (i % 2) →
    ∀ r ∈ PostProcessor.applyPasses ps t i n, r.input ≠ r.output := by
  intro ps
  induction ps with
  | nil =>
    intro t i n _ _ _ r hr
    simp [PostProcessor.applyPasses] at hr
  | cons pass rest ih =>
    intro t i n hn htc htt r hr
    by_cases hi : i = n - 1
    · have hrest : rest = [] := by
        apply List.eq_nil_of_length_eq_zero
        simp only [List.length_cons] at hn
        omega
      subst hrest
      rw [PostProcessor.applyPasses, if_pos hi] at hr
      simp only [PostProcessor.applyPasses, List.mem_singleton] at hr
      subst hr
      exact htc
    · rw [PostProcessor.applyPasses, if_neg hi] at hr
      rcases List.mem_cons.mp hr with hr | hr
      · subst hr
        show ¬ t = PostProcessor.tempTargets.getD
          (i % PostProcessor.tempTargets.length) (Target.tempTarget 0)
        rw [tempTargets_getD]
        exact htt
      · have hn2 : n = (i + 1) + rest.length := by
          simp only [List.length_cons] at hn; omega
        refine ih _ (i + 1) n hn2 ?_ ?_ r hr
        · rw [tempTargets_getD]; intro hc; cases hc
        · rw [tempTargets_getD]
          intro hc
          have := Target.tempTarget.inj hc
          omega

/-- The three offscreen render-target textures created by
`createRenderTargets` and usable as color attachments or sampled
inputs: the main render target and the two temporary targets.  (The
depth texture is not sampled or chained, and the canvas view is not
offscreen.) -/
def offscreenTargets : List Target :=
  Target.mainRenderTarget :: PostProcessor.tempTargets

theorem applyPasses_targets_mem :
    ∀ (ps : List PostProcessPass) (t : Target) (i n : Nat),
    t ∈ offscreenTargets →
    ∀ r ∈ PostProcessor.applyPasses ps t i n,
      r.input ∈ offscreenTargets ∧
      (r.output = Target.canvas ∨ r.output ∈ offscreenTargets) := by
  intro ps
  induction ps with
  | nil =>
    intro t i n _ r hr
    simp [PostProcessor.applyPasses] at hr
  | cons pass rest ih =>
    intro t i n ht r hr
    by_cases hi : i = n - 1
    · rw [PostProcessor.applyPasses, if_pos hi] at hr
      rcases List.mem_cons.mp hr with hr | hr
      · subst hr
        exact ⟨ht, Or.inl rfl⟩
      · exact ih t (i + 1) n ht r hr
    · rw [PostProcessor.applyPasses, if_neg hi] at hr
      have hout : PostProcessor.tempTargets.getD
          (i % PostProcessor.tempTargets.length) (Target.tempTarget 0) ∈
          offscreenTargets := by
        rw [tempTargets_getD]
        rcases Nat.mod_two_eq_zero_or_one i with h2 | h2 <;> rw [h2] <;> decide
      rcases List.mem_cons.mp hr with hr | hr
      · subst hr
        exact ⟨ht, Or.inr hout⟩
      · exact ih _ (i + 1) n hout r hr

/-- A concrete pass list used by the witnesses: blur and vignette
enabled, bloom disabled. -/
def demoPasses : List PostProcessPass :=
  [{ id := "blur", enabled := true },
   { id := "bloom", enabled := false },
   { id := "vignette", enabled := true }]

/-- The first render pass `applyPostProcessing` encodes for
`demoPasses`. -/
def demoFirstRec : RenderPassRec :=
  { label := "postprocess_blur", passId := "blur",
    input := Target.mainRenderTarget, output := Target.tempTarget 0 }

/-- C2: `applyPostProcessing` encodes exactly the passes whose enabled
flag is true, in insertion order, as a linear chain: with no enabled
pass it encodes the single `copy_to_final` pass from the scene render
target to the canvas; otherwise the encoded passes correspond
one-to-one and in order to the enabled passes, the chain starts by
reading the scene render target with each later pass reading the
previous pass's output, and the last pass writes the canvas. -/
theorem c2_postprocessing_linear_chain (passes : List PostProcessPass) :
    (passes.filter (fun pass => pass.enabled) = [] →
      PostProcessor.applyPostProcessing passes =
        [{ label := "copy_to_final", passId := "",
           input := Target.mainRenderTarget, output := Target.canvas }]) ∧
    (passes.filter (fun pass => pass.enabled) ≠ [] →
      ((PostProcessor.applyPostProcessing passes).map RenderPassRec.passId =
          (passes.filter (fun pass => pass.enabled)).map PostProcessPass.id ∧
        chainedFrom Target.mainRenderTarget
          (PostProcessor.applyPostProcessing passes) ∧
        ∃ r, (PostProcessor.applyPostProcessing passes).getLast? = some r ∧
          r.output = Target.canvas)) := by
  constructor
  · intro h
    unfold PostProcessor.applyPostProcessing
    simp [h]
  · intro h
    have hlen : ¬ (passes.filter (fun pass => pass.enabled)).length = 0 := by
      simpa [List.length_eq_zero] using h
    unfold PostProcessor.applyPostProcessing
    rw [if_neg hlen]
    exact ⟨applyPasses_map_passId _ _ _ _,
      applyPasses_chained _ _ _ _ (by omega),
      applyPasses_getLast?_canvas _ _ _ _ (by omega) h⟩

/-- Witness for C2: at `demoPasses` the enabled filter is nonempty and
the chain properties hold. -/
theorem c2_postprocessing_linear_chain_witness :
    demoPasses.filter (fun pass => pass.enabled) ≠ [] ∧
    ((PostProcessor.applyPostProcessing demoPasses).map RenderPassRec.passId =
        (demoPasses.filter (fun pass => pass.enabled)).map PostProcessPass.id ∧
      chainedFrom Target.mainRenderTarget
        (PostProcessor.applyPostProcessing demoPasses) ∧
      ∃ r, (PostProcessor.applyPostProcessing demoPasses).getLast? = some r ∧
        r.output = Target.canvas) :=
  ⟨by decide, (c2_postprocessing_linear_chain demoPasses).2 (by decide)⟩

/-- C3: every texture read or written by a run of `applyPostProcessing`
is either the canvas view or one of the three offscreen targets that
`createRenderTargets` creates (the main render target and the two
temporary ping-pong targets) - a bound independent of how many passes
are enabled, so no pass uses any additional render-target texture. -/
theorem c3_at_most_three_offscreen_targets (passes : List PostProcessPass) :
    offscreenTargets.length = 3 ∧
    ∀ r ∈ PostProcessor.applyPostProcessing passes,
      (r.input = Target.canvas ∨ r.input ∈ offscreenTargets) ∧
      (r.output = Target.canvas ∨ r.output ∈ offscreenTargets) := by
  refine ⟨rfl, ?_⟩
  intro r hr
  unfold PostProcessor.applyPostProcessing at hr
  by_cases h : (passes.filter (fun pass => pass.enabled)).length = 0
  · rw [if_pos h] at hr
    rw [List.mem_singleton] at hr
    subst hr
    exact ⟨Or.inr (by decide), Or.inl rfl⟩
  · rw [if_neg h] at hr
    have hm := applyPasses_targets_mem _ Target.mainRenderTarget 0 _
      (by decide) r hr
    exact ⟨Or.inr hm.1, hm.2⟩

/-- Witness for C3: the first pass encoded for `demoPasses` reads and
writes targets from the three-element offscreen set. -/
theorem c3_at_most_three_offscreen_targets_witness :
    demoFirstRec ∈ PostProcessor.applyPostProcessing demoPasses ∧
    ((demoFirstRec.input = Target.canvas ∨
        demoFirstRec.input ∈ offscreenTargets) ∧
      (demoFirstRec.output = Target.canvas ∨
        demoFirstRec.output ∈ offscreenTargets)) :=
  ⟨by decide,
    (c3_at_most_three_offscreen_targets demoPasses).2 demoFirstRec (by decide)⟩

/-- C9: no encoded render pass samples the texture it renders into: in
every run of `applyPostProcessing` each pass's input texture differs
from its output target, and the canvas view written by the final pass
is none of the three offscreen targets. -/
theorem c9_no_pass_samples_its_own_output (passes : List PostProcessPass) :
    (∀ r ∈ PostProcessor.applyPostProcessing passes, r.input ≠ r.output) ∧
    Target.canvas ∉ offscreenTargets := by
  refine ⟨?_, by decide⟩
  intro r hr
  unfold PostProcessor.applyPostProcessing at hr
  by_cases h : (passes.filter (fun pass => pass.enabled)).length = 0
  · rw [if_pos h] at hr
    rw [List.mem_singleton] at hr
    subst hr
    decide
  · rw [if_neg h] at hr
    exact applyPasses_input_ne_output _ Target.mainRenderTarget 0 _
      (by omega) (by decide) (by decide) r hr

/-- Witness for C9: the first pass encoded for `demoPasses` does not
sample its own output. -/
theorem c9_no_pass_samples_its_own_output_witness :
    demoFirstRec ∈ PostProcessor.applyPostProcessing demoPasses ∧
    demoFirstRec.input ≠ demoFirstRec.output :=
  ⟨by decide,
    (c9_no_pass_samples_its_own_output demoPasses).1 demoFirstRec (by decide)⟩

/-! ## The GPU device oracle and the managers' resource-creation
methods (src/src/core/UniformManager.ts, ShaderManager, TextureManager) -/

/-- Which device API a call-through method invokes; used to record that
a method with a missing device performs no device call at all. -/
inductive DeviceCall : Type
  | createBuffer : DeviceCall
  | createShaderModule : DeviceCall
  | createSampler : DeviceCall
  | createBindGroupLayout : DeviceCall
  | createPipelineLayout : DeviceCall
  | createRenderPipeline : DeviceCall
  | createTexture : DeviceCall
  | createBindGroup : DeviceCall
deriving DecidableEq

/-- The GPU device as an oracle: each creation API yields the native
handle it produces, or `none` when the underlying call throws.
Descriptor details not observed by any claim (usage flags, address
modes, entries) are abstracted into the string argument.
`shaderHasError` models `getCompilationInfo` reporting an
error-severity message for a given module handle. -/
structure Device where
  createBuffer : String → Nat → Option Nat
  createShaderModule : String → String → Option Nat
  shaderHasError : Nat → Bool
  createSampler : String → Option Nat
  createBindGroupLayout : String → Option Nat
  createPipelineLayout : String → Option Nat
  createRenderPipeline : String → Option Nat
  createTexture : String → Option Nat
  createBindGroup : String → Option Nat

/-- `UniformManager.createUniformBuffer`: null when the device is
absent, before any device call; otherwise the requested size is aligned
up to a positive multiple of 256 (`Math.max(Math.ceil(size/256)*256, 256)`)
and the buffer handle produced by `device.createBuffer` is stored under
the label and returned; a throw is caught and null returned with the
map unchanged. -/
def UniformManager.createUniformBuffer (device : Option Device)
    (uniformBuffers : List (String × Nat)) (label : String) (size : Nat) :
    Option Nat × List (String × Nat) × List DeviceCall :=
  match device with
  | none => (none, uniformBuffers, [])
  | some d =>
    let alignedSize := max ((size + 255) / 256 * 256) 256
    match d.createBuffer label alignedSize with
    | none => (none, uniformBuffers, [DeviceCall.createBuffer])
    | some buffer =>
      (some buffer, jsMapSet uniformBuffers label buffer,
        [DeviceCall.createBuffer])

/-- The three label-keyed maps of `ShaderManager`. -/
structure ShaderState where
  shaderModules : List (String × Nat)
  pipelines : List (String × Nat)
  bindGroupLayouts : List (String × Nat)
deriving DecidableEq

/-- The `vertex`/`fragment` WGSL pair of the `ShaderSource` interface. -/
structure ShaderSource where
  vertex : String
  fragment : String
deriving DecidableEq

/-- `ShaderManager.createShaderModule`: null when the device is absent,
before any device call; otherwise the module produced by
`device.createShaderModule` is stored under the label and returned (the
`getCompilationInfo().then` chain only logs and does not affect the
return value); a throw is caught and null returned. -/
def ShaderManager.createShaderModule (device : Option Device)
    (st : ShaderState) (label sourceText : String) :
    Option Nat × ShaderState × List DeviceCall :=
  match device with
  | none => (none, st, [])
  | some d =>
    match d.createShaderModule label sourceText with
    | none => (none, st, [DeviceCall.createShaderModule])
    | some shaderModule =>
      (some shaderModule,
        { st with shaderModules := jsMapSet st.shaderModules label shaderModule },
        [DeviceCall.createShaderModule])

/-- `ShaderManager.createBindGroupLayout`: null when the device is
absent; otherwise the layout produced by the device is stored under the
label and returned; a throw is caught and null returned. -/
def ShaderManager.createBindGroupLayout (device : Option Device)
    (st : ShaderState) (label : String) :
    Option Nat × ShaderState × List DeviceCall :=
  match device with
  | none => (none, st, [])
  | some d =>
    match d.createBindGroupLayout label with
    | none => (none, st, [DeviceCall.createBindGroupLayout])
    | some layout =>
      (some layout,
        { st with bindGroupLayouts := jsMapSet st.bindGroupLayouts label layout },
        [DeviceCall.createBindGroupLayout])

/-- `ShaderManager.createDefaultBindGroupLayout`: the private helper
storing the device-produced layout under the key "default". -/
def ShaderManager.createDefaultBindGroupLayout (device : Option Device)
    (st : ShaderState) : Option Nat × ShaderState × List DeviceCall :=
  match device with
  | none => (none, st, [])
  | some d =>
    match d.createBindGroupLayout "default_bind_group_layout" with
    | none => (none, st, [DeviceCall.createBindGroupLayout])
    | some layout =>
      (some layout,
        { st with bindGroupLayouts := jsMapSet st.bindGroupLayouts "default" layout },
        [DeviceCall.createBindGroupLayout])

/-- `ShaderManager.createPipeline`: null when the device is absent,
before any device call.  Otherwise: create the vertex and fragment
shader modules (each a `createShaderModule` call); null when either
fails or either compilation reports an error; when no bind-group layout
was supplied, create and use the default one (null when that fails);
then create the pipeline layout and the render pipeline, store the
pipeline under the label and return it; any throw is caught and null
returned. -/
def ShaderManager.createPipeline (device : Option Device) (st : ShaderState)
    (label : String) (src : ShaderSource) (givenLayouts : List Nat) :
    Option Nat × ShaderState × List DeviceCall :=
  match device with
  | none => (none, st, [])
  | some d =>
    let vres := ShaderManager.createShaderModule device st
      (label ++ "_vertex") src.vertex
    let fres := ShaderManager.createShaderModule device vres.2.1
      (label ++ "_fragment") src.fragment
    let st2 := fres.2.1
    let calls0 := vres.2.2 ++ fres.2.2
    match vres.1, fres.1 with
    | some vmod, some fmod =>
      if d.shaderHasError vmod || d.shaderHasError fmod then
        (none, st2, calls0)
      else
        let layoutStep : Option (List Nat) × ShaderState × List DeviceCall :=
          if givenLayouts.isEmpty then
            match ShaderManager.createDefaultBindGroupLayout device st2 with
            | (some layout, st3, calls) => (some [layout], st3, calls)
            | (none, st3, calls) => (none, st3, calls)
          else (some givenLayouts, st2, [])
        match layoutStep with
        | (none, st3, calls1) => (none, st3, calls0 ++ calls1)
        | (some _layouts, st3, calls1) =>
          match d.createPipelineLayout (label ++ "_layout") with
          | none =>
            (none, st3, calls0 ++ calls1 ++ [DeviceCall.createPipelineLayout])
          | some _pipelineLayout =>
            match d.createRenderPipeline label with
            | none =>
              (none, st3, calls0 ++ calls1 ++
                [DeviceCall.createPipelineLayout, DeviceCall.createRenderPipeline])
            | some pipeline =>
              (some pipeline,
                { st3 with pipelines := jsMapSet st3.pipelines label pipeline },
                calls0 ++ calls1 ++
                  [DeviceCall.createPipelineLayout, DeviceCall.createRenderPipeline])
    | _, _ => (none, st2, calls0)

/-- `TextureManager.createSampler`: null when the device is absent;
otherwise the sampler produced by the device is stored under the label
and returned; a throw is caught and null returned. -/
def TextureManager.createSampler (device : Option Device)
    (samplers : List (String × Nat)) (label : String) :
    Option Nat × List (String × Nat) × List DeviceCall :=
  match device with
  | none => (none, samplers, [])
  | some d =>
    match d.createSampler label with
    | none => (none, samplers, [DeviceCall.createSampler])
    | some sampler =>
      (some sampler, jsMapSet samplers label sampler,
        [DeviceCall.createSampler])

/-- `TextureManager.createRenderTarget`: null when the device is
absent; otherwise the texture produced by the device is returned (this
method does not store into the texture map); a throw is caught and null
returned. -/
def TextureManager.createRenderTarget (device : Option Device)
    (label : String) : Option Nat × List DeviceCall :=
  match device with
  | none => (none, [])
  | some d =>
    match d.createTexture label with
    | none => (none, [DeviceCall.createTexture])
    | some texture => (some texture, [DeviceCall.createTexture])

/-- `UniformManager.createUniformBindGroup`: null when the device is
absent; otherwise the bind group produced by the device is stored under
the label and returned; a throw is caught and null returned. -/
def UniformManager.createUniformBindGroup (device : Option Device)
    (bindGroups : List (String × Nat)) (label : String) :
    Option Nat × List (String × Nat) × List DeviceCall :=
  match device with
  | none => (none, bindGroups, [])
  | some d =>
    match d.createBindGroup label with
    | none => (none, bindGroups, [DeviceCall.createBindGroup])
    | some bindGroup =>
      (some bindGroup, jsMapSet bindGroups label bindGroup,
        [DeviceCall.createBindGroup])

/-- `UniformManager.getUniformBuffer`: `this.uniformBuffers.get(label) || null`.
GPU handles are object references and never falsy, so `|| null` only
maps a missing entry to null. -/
def UniformManager.getUniformBuffer (uniformBuffers : List (String × Nat))
    (label : String) : Option Nat :=
  jsMapGet uniformBuffers label

/-- `UniformManager.getBindGroup`: `this.bindGroups.get(label) || null`. -/
def UniformManager.getBindGroup (bindGroups : List (String × Nat))
    (label : String) : Option Nat :=
  jsMapGet bindGroups label

/-- `ShaderManager.getPipeline`: `this.pipelines.get(label) || null`. -/
def ShaderManager.getPipeline (st : ShaderState) (label : String) :
    Option Nat :=
  jsMapGet st.pipelines label

/-- `TextureManager.getTexture`: `this.textures.get(key) || null`. -/
def TextureManager.getTexture (textures : List (String × Nat))
    (key : String) : Option Nat :=
  jsMapGet textures key

/-- `TextureManager.getSampler`: `this.samplers.get(key) || null`. -/
def TextureManager.getSampler (samplers : List (String × Nat))
    (key : String) : Option Nat :=
  jsMapGet samplers key

/-- A device whose every creation call succeeds with a distinct
handle. -/
def testDevice : Device :=
  { createBuffer := fun _ _ => some 11
    createShaderModule := fun _ _ => some 12
    shaderHasError := fun _ => false
    createSampler := fun _ => some 13
    createBindGroupLayout := fun _ => some 14
    createPipelineLayout := fun _ => some 15
    createRenderPipeline := fun _ => some 16
    createTexture := fun _ => some 17
    createBindGroup := fun _ => some 18 }

/-- A device whose every creation call throws. -/
def failDevice : Device :=
  { createBuffer := fun _ _ => none
    createShaderModule := fun _ _ => none
    shaderHasError := fun _ => false
    createSampler := fun _ => none
    createBindGroupLayout := fun _ => none
    createPipelineLayout := fun _ => none
    createRenderPipeline := fun _ => none
    createTexture := fun _ => none
    createBindGroup := fun _ => none }

/-- C6: every modeled resource-creation method (uniform buffer, shader
module, pipeline, sampler, render-target texture, bind group,
bind-group layout) returns null without invoking any device API when
the device is null, and a successful call returns exactly the native
handle the device produced. -/
theorem c6_create_methods_forward_device_handles :
    (∀ bufs label size,
      UniformManager.createUniformBuffer none bufs label size =
        (none, bufs, [])) ∧
    (∀ st label sourceText,
      ShaderManager.createShaderModule none st label sourceText =
        (none, st, [])) ∧
    (∀ samplers label,
      TextureManager.createSampler none samplers label =
        (none, samplers, [])) ∧
    (∀ st label,
      ShaderManager.createBindGroupLayout none st label = (none, st, [])) ∧
    (∀ st label src givenLayouts,
      ShaderManager.createPipeline none st label src givenLayouts =
        (none, st, [])) ∧
    (∀ label, TextureManager.createRenderTarget none label = (none, [])) ∧
    (∀ bindGroups label,
      UniformManager.createUniformBindGroup none bindGroups label =
        (none, bindGroups, [])) ∧
    (∀ (d : Device) bufs label size buffer,
      d.createBuffer label (max ((size + 255) / 256 * 256) 256) =
          some buffer →
      (UniformManager.createUniformBuffer (some d) bufs label size).1 =
        some buffer) ∧
    (∀ (d : Device) st label sourceText shaderModule,
      d.createShaderModule label sourceText = some shaderModule →
      (ShaderManager.createShaderModule (some d) st label sourceText).1 =
        some shaderModule) ∧
    (∀ (d : Device) samplers label sampler,
      d.createSampler label = some sampler →
      (TextureManager.createSampler (some d) samplers label).1 =
        some sampler) ∧
    (∀ (d : Device) st label layout,
      d.createBindGroupLayout label = some layout →
      (ShaderManager.createBindGroupLayout (some d) st label).1 =
        some layout) ∧
    (∀ (d : Device) label texture,
      d.createTexture label = some texture →
      (TextureManager.createRenderTarget (some d) label).1 = some texture) ∧
    (∀ (d : Device) bindGroups label bindGroup,
      d.createBindGroup label = some bindGroup →
      (UniformManager.createUniformBindGroup (some d) bindGroups label).1 =
        some bindGroup) ∧
    (∀ (d : Device) (st : ShaderState) (label : String) (src : ShaderSource)
        (givenLayouts : List Nat) (vmod fmod pl pipeline : Nat),
      d.createShaderModule (label ++ "_vertex") src.vertex = some vmod →
      d.createShaderModule (label ++ "_fragment") src.fragment = some fmod →
      d.shaderHasError vmod = false →
      d.shaderHasError fmod = false →
      givenLayouts.isEmpty = false →
      d.createPipelineLayout (label ++ "_layout") = some pl →
      d.createRenderPipeline label = some pipeline →
      (ShaderManager.createPipeline (some d) st label src givenLayouts).1 =
        some pipeline) := by
  refine ⟨fun _ _ _ => rfl, fun _ _ _ => rfl, fun _ _ => rfl, fun _ _ => rfl,
    fun _ _ _ _ => rfl, fun _ => rfl, fun _ _ => rfl, ?_, ?_, ?_, ?_, ?_, ?_, ?_⟩
  · intro d bufs label size buffer h
    simp [UniformManager.createUniformBuffer, h]
  · intro d st label sourceText shaderModule h
    simp [ShaderManager.createShaderModule, h]
  · intro d samplers label sampler h
    simp [TextureManager.createSampler, h]
  · intro d st label layout h
    simp [ShaderManager.createBindGroupLayout, h]
  · intro d label texture h
    simp [TextureManager.createRenderTarget, h]
  · intro d bindGroups label bindGroup h
    simp [UniformManager.createUniformBindGroup, h]
  · intro d st label src givenLayouts vmod fmod pl pipeline hv hf hev hef hgl hpl hrp
    simp [ShaderManager.createPipeline, ShaderManager.createShaderModule,
      hv, hf, hev, hef, hgl, hpl, hrp]

/-- Witness for C6: at `testDevice` the successful-call clauses produce
the device's handles, with every hypothesis discharged by evaluation. -/
theorem c6_create_methods_forward_device_handles_witness :
    (UniformManager.createUniformBuffer (some testDevice) [] "u" 96).1 =
      some 11 ∧
    (ShaderManager.createShaderModule (some testDevice) ⟨[], [], []⟩ "m"
      "code").1 = some 12 ∧
    (TextureManager.createSampler (some testDevice) [] "s").1 = some 13 ∧
    (ShaderManager.createBindGroupLayout (some testDevice) ⟨[], [], []⟩
      "l").1 = some 14 ∧
    (TextureManager.createRenderTarget (some testDevice) "t").1 = some 17 ∧
    (UniformManager.createUniformBindGroup (some testDevice) [] "b").1 =
      some 18 ∧
    (ShaderManager.createPipeline (some testDevice) ⟨[], [], []⟩ "p"
      ⟨"v", "f"⟩ [14]).1 = some 16 :=
  ⟨c6_create_methods_forward_device_handles.2.2.2.2.2.2.2.1
      testDevice [] "u" 96 11 rfl,
    c6_create_methods_forward_device_handles.2.2.2.2.2.2.2.2.1
      testDevice ⟨[], [], []⟩ "m" "code" 12 rfl,
    c6_create_methods_forward_device_handles.2.2.2.2.2.2.2.2.2.1
      testDevice [] "s" 13 rfl,
    c6_create_methods_forward_device_handles.2.2.2.2.2.2.2.2.2.2.1
      testDevice ⟨[], [], []⟩ "l" 14 rfl,
    c6_create_methods_forward_device_handles.2.2.2.2.2.2.2.2.2.2.2.1
      testDevice "t" 17 rfl,
    c6_create_methods_forward_device_handles.2.2.2.2.2.2.2.2.2.2.2.2.1
      testDevice [] "b" 18 rfl,
    c6_create_methods_forward_device_handles.2.2.2.2.2.2.2.2.2.2.2.2.2
      testDevice ⟨[], [], []⟩ "p" ⟨"v", "f"⟩ [14] 12 12 15 16
      rfl rfl rfl rfl rfl rfl rfl⟩

theorem jsMapGet_set_self {α : Type} (m : List (String × α)) (k : String)
    (v : α) : jsMapGet (jsMapSet m k v) k = some v := by
  induction m with
  | nil => simp [jsMapSet, jsMapGet]
  | cons kv rest ih =>
    obtain ⟨k', v'⟩ := kv
    by_cases h : k' = k
    · simp [jsMapSet, jsMapGet, h]
    · simp [jsMapSet, jsMapGet, h, ih]

theorem jsMapGet_set_other {α : Type} (m : List (String × α))
    (k : String) (v : α) (k' : String) (h : k' ≠ k) :
    jsMapGet (jsMapSet m k v) k' = jsMapGet m k' := by
  induction m with
  | nil =>
    simp [jsMapSet, jsMapGet, Ne.symm h]
  | cons kv rest ih =>
    obtain ⟨k'', v''⟩ := kv
    by_cases hk : k'' = k
    · subst hk
      simp [jsMapSet, jsMapGet, Ne.symm h]
    · by_cases hk' : k'' = k'
      · simp [jsMapSet, jsMapGet, hk, hk', h]
      · simp [jsMapSet, jsMapGet, hk, hk', ih]

/-- C8: the label-keyed maps obey a pure present-or-absent discipline.
The getters are embedded as pure observations of the map (they take the
state and return an option, mirroring `map.get(label) || null`), so
they cannot create, modify or remove entries; the theorem states that a
getter returns the value most recently stored under the label (`set`
then `get` round-trips, `set` under one label leaves every other label
alone, the empty map yields null), that after a successful create call
the getter returns exactly the handle that call stored, and that a
failed create leaves the map unchanged. -/
theorem c8_label_maps_present_or_absent :
    (∀ (α : Type) (m : List (String × α)) k v,
      jsMapGet (jsMapSet m k v) k = some v) ∧
    (∀ (α : Type) (m : List (String × α)) k v k', k' ≠ k →
      jsMapGet (jsMapSet m k v) k' = jsMapGet m k') ∧
    (∀ (α : Type) k, jsMapGet ([] : List (String × α)) k = none) ∧
    (∀ (d : Device) bufs label size buffer,
      d.createBuffer label (max ((size + 255) / 256 * 256) 256) =
          some buffer →
      UniformManager.getUniformBuffer
        (UniformManager.createUniformBuffer (some d) bufs label size).2.1
        label = some buffer) ∧
    (∀ (d : Device) bufs label size,
      d.createBuffer label (max ((size + 255) / 256 * 256) 256) = none →
      (UniformManager.createUniformBuffer (some d) bufs label size).2.1 =
        bufs) ∧
    (∀ (d : Device) samplers label sampler,
      d.createSampler label = some sampler →
      TextureManager.getSampler
        (TextureManager.createSampler (some d) samplers label).2.1 label =
        some sampler) ∧
    (∀ (d : Device) bindGroups label bindGroup,
      d.createBindGroup label = some bindGroup →
      UniformManager.getBindGroup
        (UniformManager.createUniformBindGroup (some d) bindGroups
          label).2.1 label = some bindGroup) ∧
    (∀ (d : Device) (st : ShaderState) (label : String) (src : ShaderSource)
        (givenLayouts : List Nat) (vmod fmod pl pipeline : Nat),
      d.createShaderModule (label ++ "_vertex") src.vertex = some vmod →
      d.createShaderModule (label ++ "_fragment") src.fragment = some fmod →
      d.shaderHasError vmod = false →
      d.shaderHasError fmod = false →
      givenLayouts.isEmpty = false →
      d.createPipelineLayout (label ++ "_layout") = some pl →
      d.createRenderPipeline label = some pipeline →
      ShaderManager.getPipeline
        (ShaderManager.createPipeline (some d) st label src
          givenLayouts).2.1 label = some pipeline) := by
  refine ⟨fun α m k v => jsMapGet_set_self m k v,
    fun α m k v k' h => jsMapGet_set_other m k v k' h,
    fun α k => rfl, ?_, ?_, ?_, ?_, ?_⟩
  · intro d bufs label size buffer h
    simp [UniformManager.createUniformBuffer, UniformManager.getUniformBuffer,
      h, jsMapGet_set_self]
  · intro d bufs label size h
    simp [UniformManager.createUniformBuffer, h]
  · intro d samplers label sampler h
    simp [TextureManager.createSampler, TextureManager.getSampler,
      h, jsMapGet_set_self]
  · intro d bindGroups label bindGroup h
    simp [UniformManager.createUniformBindGroup, UniformManager.getBindGroup,
      h, jsMapGet_set_self]
  · intro d st label src givenLayouts vmod fmod pl pipeline
      hv hf hev hef hgl hpl hrp
    simp [ShaderManager.createPipeline, ShaderManager.createShaderModule,
      ShaderManager.getPipeline, hv, hf, hev, hef, hgl, hpl, hrp,
      jsMapGet_set_self]

/-- Witness for C8: concrete map updates and create-then-get pairs. -/
theorem c8_label_maps_present_or_absent_witness :
    jsMapGet (jsMapSet [("a", (1 : Nat))] "b" 2) "b" = some 2 ∧
    ("a" : String) ≠ "b" ∧
    jsMapGet (jsMapSet [("a", (1 : Nat))] "b" 2) "a" = some 1 ∧
    jsMapGet ([] : List (String × Nat)) "a" = none ∧
    UniformManager.getUniformBuffer
      (UniformManager.createUniformBuffer (some testDevice) [] "u" 96).2.1
      "u" = some 11 ∧
    (UniformManager.createUniformBuffer (some failDevice) [("x", 9)] "u"
      96).2.1 = [("x", 9)] ∧
    TextureManager.getSampler
      (TextureManager.createSampler (some testDevice) [] "s").2.1 "s" =
      some 13 ∧
    ShaderManager.getPipeline
      (ShaderManager.createPipeline (some testDevice) ⟨[], [], []⟩ "p"
        ⟨"v", "f"⟩ [14]).2.1 "p" = some 16 :=
  ⟨c8_label_maps_present_or_absent.1 Nat [("a", 1)] "b" 2,
    by decide,
    (c8_label_maps_present_or_absent.2.1 Nat [("a", 1)] "b" 2 "a"
      (by decide)).trans rfl,
    c8_label_maps_present_or_absent.2.2.1 Nat "a",
    c8_label_maps_present_or_absent.2.2.2.1 testDevice [] "u" 96 11 rfl,
    c8_label_maps_present_or_absent.2.2.2.2.1 failDevice [("x", 9)] "u" 96
      rfl,
    c8_label_maps_present_or_absent.2.2.2.2.2.1 testDevice [] "s" 13 rfl,
    c8_label_maps_present_or_absent.2.2.2.2.2.2.2 testDevice ⟨[], [], []⟩
      "p" ⟨"v", "f"⟩ [14] 12 12 15 16 rfl rfl rfl rfl rfl rfl rfl⟩

/-! ## Podium: initialization and the per-frame render loop
(src/Documents/Dev/podiumjs-webgpu/src/core/Podium.ts) -/

/-- The outcomes `Podium.initialize` branches on: whether
`context.initialize()` succeeds, whether a post-processor was
constructed (`enablePostProcessing`), and whether
`postProcessor.initialize(...)` succeeds. -/
structure PodiumInitInputs where
  contextInitOk : Bool
  postProcessorPresent : Bool
  postProcessorInitOk : Bool
deriving DecidableEq

/-- The observable outcome of `Podium.initialize`: the returned
boolean, whether `this.postProcessor` is still set afterwards, and the
final `isInitialized` flag. -/
structure PodiumInitResult where
  returned : Bool
  postProcessorAfter : Bool
  isInitialized : Bool
deriving DecidableEq

/-- `Podium.initialize`: when the context fails, log and return false.
When the post-processor is present but its initialization fails, log
a warning ("continuing without it"), set `this.postProcessor = null`
and continue.  In all remaining respects set `isInitialized = true` and
return true. -/
def Podium.initializeOutcome (inp : PodiumInitInputs) : PodiumInitResult :=
  if !inp.contextInitOk then
    { returned := false, postProcessorAfter := inp.postProcessorPresent,
      isInitialized := false }
  else
    let postProcessorAfter :=
      if inp.postProcessorPresent then
        if inp.postProcessorInitOk then true else false
      else false
    { returned := true, postProcessorAfter := postProcessorAfter,
      isInitialized := true }

/-- The per-object data `Podium.render`'s draw loop reads. -/
structure RenderObject where
  id : String
  visible : Bool
deriving DecidableEq

/-- One command issued inside the per-object render loop. -/
inductive DrawCmd : Type
  | setPipeline : String → DrawCmd
  | setBindGroup : String → DrawCmd
  | bindGeometry : String → DrawCmd
  | draw : String → DrawCmd
deriving DecidableEq

/-- The commands the `renderObjects.forEach` body of `Podium.render`
issues for one object: set pipeline, set bind group, bind the plane's
buffers and draw when `obj.visible` is true, nothing otherwise. -/
def Podium.renderObjectCmds (obj : RenderObject) : List DrawCmd :=
  if obj.visible then
    [DrawCmd.setPipeline obj.id, DrawCmd.setBindGroup obj.id,
     DrawCmd.bindGeometry obj.id, DrawCmd.draw obj.id]
  else []

/-- `Podium.render`: returns without drawing when uninitialized or the
device is missing, or when no current texture view is available;
otherwise traverses the render-object mapping in insertion order,
emitting the draw commands of each object. -/
def Podium.render (isInitialized devicePresent textureViewOk : Bool)
    (renderObjects : List RenderObject) : List DrawCmd :=
  if !isInitialized || !devicePresent then []
  else if !textureViewOk then []
  else renderObjects.flatMap Podium.renderObjectCmds

/-! ## PostProcessor.updateEffect and updateEffectUniforms -/

/-- The state `PostProcessor.updateEffect` reads: which effect ids have
passes, the uniform-buffer map, and whether the device is present. -/
structure EffectUpdateState where
  passIds : List String
  uniformBuffers : List (String × Nat)
  devicePresent : Bool

/-- `PostProcessor.updateEffectUniforms` reduced to its success value:
it calls `uniformManager.updateUniformBuffer` on the buffer labelled
`effectId + "_uniforms"` with the merged uniform data and returns that
call's boolean. -/
def PostProcessor.updateEffectUniforms (st : EffectUpdateState)
    (effectId : String) (data : UniformData) : Bool :=
  (UniformManager.updateUniformBuffer st.devicePresent st.uniformBuffers
    (effectId ++ "_uniforms") data).1

/-- `PostProcessor.updateEffect`: returns false when the effect id has
no pass; otherwise merges the options into the pass, calls
`updateEffectUniforms`, logs its success flag - and returns true
regardless of that flag. -/
def PostProcessor.updateEffect (st : EffectUpdateState) (id : String)
    (data : UniformData) : Bool :=
  if st.passIds.contains id then
    let _success := PostProcessor.updateEffectUniforms st id data
    true
  else false

/-- An `updateEffect` state where the "blur" pass exists but its
uniform update must fail: no uniform buffer is registered and the
device is absent. -/
def failingEffectState : EffectUpdateState :=
  { passIds := ["blur"], uniformBuffers := [], devicePresent := false }

/-! ## Podium.updateUniforms, Podium.setTransform and
PostProcessor.beginRenderToTexture -/

/-- The state `Podium.setTransform` and `Podium.updateUniforms` read:
for each render-object id whether that object has a uniform buffer,
the uniform-buffer map, and whether the device is present. -/
structure TransformState where
  renderObjects : List (String × Bool)
  uniformBuffers : List (String × Nat)
  devicePresent : Bool

/-- `Podium.updateUniforms`: logs and returns false when the render
object is missing or has no uniform buffer; otherwise returns the
boolean of the wrapped `uniformManager.updateUniformBuffer` call on
the buffer labelled `id + "_uniforms"` (a failure is additionally
logged). -/
def Podium.updateUniforms (st : TransformState) (id : String)
    (data : UniformData) : Bool :=
  match jsMapGet st.renderObjects id with
  | none => false
  | some hasUniformBuffer =>
    if hasUniformBuffer then
      (UniformManager.updateUniformBuffer st.devicePresent st.uniformBuffers
        (id ++ "_uniforms") data).1
    else false

/-- `Podium.setTransform`: logs and returns false when the render
object is unknown; otherwise assigns the transform and, when the
object has a uniform buffer, computes the MVP matrix, calls
`updateUniforms` with `{ mvpMatrix }` and logs that call's success
flag - then returns true regardless of it (and also returns true,
after a warning that the transform will not be applied, when the
object has no uniform buffer). -/
def Podium.setTransform (st : TransformState) (id : String)
    (mvpMatrix : Fin 16 → ℚ) : Bool :=
  match jsMapGet st.renderObjects id with
  | none => false
  | some hasUniformBuffer =>
    if hasUniformBuffer then
      let _success := Podium.updateUniforms st id
        { mvpMatrix := some mvpMatrix, time := none, resolution := none,
          mousePosition := none, effectOptions := [] }
      true
    else true

/-- `PostProcessor.beginRenderToTexture`: not a log-and-return
operation.  It builds its render-pass descriptor with
`this.renderTarget!.createView()` and `this.depthTexture!.createView()`:
when either texture is null the non-null assertion dereferences null
and the call throws a TypeError to the caller (the color attachment is
evaluated first); otherwise it returns the render pass the command
encoder begins. -/
def PostProcessor.beginRenderToTexture (renderTarget depthTexture : Option Nat)
    (beginRenderPass : Nat) : Except String Nat :=
  match renderTarget with
  | none => Except.error "TypeError: null renderTarget has no createView"
  | some _ =>
    match depthTexture with
    | none => Except.error "TypeError: null depthTexture has no createView"
    | some _ => Except.ok beginRenderPass

/-- A `setTransform` state where the "plane" object exists and has a
uniform buffer but the wrapped update must fail: no buffer is
registered under "plane_uniforms" and the device is absent. -/
def failingTransformState : TransformState :=
  { renderObjects := [("plane", true)], uniformBuffers := [],
    devicePresent := false }

/-- The `{ mvpMatrix }` record `setTransform` sends to `updateUniforms`
when the computed matrix is the identity. -/
def identityMvpData : UniformData :=
  { mvpMatrix := some UniformManager.createIdentityMatrix, time := none,
    resolution := none, mousePosition := none, effectOptions := [] }

/-! ## Claim theorems (second group) -/

/-- C5 counterexample: with a succeeding context, post-processing
enabled, and a failing post-processor initialization,
`Podium.initialize` still returns true and sets `isInitialized`,
discarding the failed post-processor - a started subsystem failed yet
initialization reports success, contradicting the claim. -/
theorem c5_counterexample_degraded_success :
    Podium.initializeOutcome ⟨true, true, false⟩ =
      { returned := true, postProcessorAfter := false,
        isInitialized := true } := rfl

/-- C5 (amended): `Podium.initialize` returns true exactly when the
WebGPU context initialized; a failing post-processor initialization is
not propagated but degraded into success with the post-processor
discarded (set to null): after a successful initialize the
post-processor survives exactly when post-processing was enabled and
its initialization succeeded, while a context failure returns early and
leaves the post-processor field untouched. -/
theorem c5_initialize_context_decides_success (inp : PodiumInitInputs) :
    (Podium.initializeOutcome inp).returned = inp.contextInitOk ∧
    (Podium.initializeOutcome inp).isInitialized = inp.contextInitOk ∧
    (Podium.initializeOutcome inp).postProcessorAfter =
      (if inp.contextInitOk then
        inp.postProcessorPresent && inp.postProcessorInitOk
      else inp.postProcessorPresent) := by
  rcases inp with ⟨c, p, k⟩
  cases c <;> cases p <;> cases k <;> exact ⟨rfl, rfl, rfl⟩

/-- C4 counterexample: failure reporting is not uniform, in three
ways.  `PostProcessor.updateEffect` returns true on a call in which
the uniform update it wraps fails; `Podium.setTransform` likewise
returns true while the `updateUniforms` call it wraps fails; and
`PostProcessor.beginRenderToTexture` on a null render target neither
logs nor returns null or false but throws a TypeError to the caller. -/
theorem c4_counterexample_not_uniform_failure_reporting :
    (PostProcessor.updateEffect failingEffectState "blur"
        uniformDataTimeOnly = true ∧
      PostProcessor.updateEffectUniforms failingEffectState "blur"
        uniformDataTimeOnly = false) ∧
    (Podium.setTransform failingTransformState "plane"
        UniformManager.createIdentityMatrix = true ∧
      Podium.updateUniforms failingTransformState "plane"
        identityMvpData = false) ∧
    PostProcessor.beginRenderToTexture none (some 3) 7 =
      Except.error "TypeError: null renderTarget has no createView" :=
  ⟨⟨rfl, rfl⟩, ⟨rfl, rfl⟩, rfl⟩

/-- C4 (amended): most modeled operations report failure by logging
and returning null or false - `updateUniformBuffer` returns false
whenever the device is absent or the buffer label is unknown,
`createUniformBuffer` returns null on a missing device or a throwing
device call, `updateEffect` and `setTransform` return false when their
id is unknown, and `Podium.updateUniforms` returns false when the
object is missing or has no uniform buffer, or when the update it
wraps fails - with these exceptions: `PostProcessor.updateEffect` and
`Podium.setTransform` return true whenever the effect or render object
exists, even when the uniform update they wrap failed (the failure is
only logged); and `PostProcessor.beginRenderToTexture` does not follow
log-and-return at all - it throws a TypeError when the render target
(or depth texture) is absent and otherwise returns the render-pass
encoder. -/
theorem c4_error_reporting_amended :
    (∀ st id data,
      PostProcessor.updateEffect st id data = st.passIds.contains id) ∧
    (∀ st id mvp,
      Podium.setTransform st id mvp =
        (jsMapGet st.renderObjects id).isSome) ∧
    (∀ st id data, jsMapGet st.renderObjects id = none →
      Podium.updateUniforms st id data = false) ∧
    (∀ st id data, st.devicePresent = false →
      Podium.updateUniforms st id data = false) ∧
    (∀ bufs label data,
      (UniformManager.updateUniformBuffer false bufs label data).1 =
        false) ∧
    (∀ bufs label data, jsMapGet bufs label = none →
      ∀ dev,
        (UniformManager.updateUniformBuffer dev bufs label data).1 =
          false) ∧
    (∀ bufs label size,
      UniformManager.createUniformBuffer none bufs label size =
        (none, bufs, [])) ∧
    (∀ (d : Device) bufs label size,
      d.createBuffer label (max ((size + 255) / 256 * 256) 256) = none →
      (UniformManager.createUniformBuffer (some d) bufs label size).1 =
        none) ∧
    (∀ depthTexture beginRenderPass,
      PostProcessor.beginRenderToTexture none depthTexture
        beginRenderPass =
        Except.error "TypeError: null renderTarget has no createView") ∧
    (∀ renderTarget depthTexture beginRenderPass,
      PostProcessor.beginRenderToTexture (some renderTarget)
        (some depthTexture) beginRenderPass =
        Except.ok beginRenderPass) := by
  refine ⟨?_, ?_, ?_, ?_, ?_, ?_, fun _ _ _ => rfl, ?_,
    fun _ _ => rfl, fun _ _ _ => rfl⟩
  · intro st id data
    unfold PostProcessor.updateEffect
    cases hc : st.passIds.contains id <;> rfl
  · intro st id mvp
    unfold Podium.setTransform
    cases h : jsMapGet st.renderObjects id with
    | none => rfl
    | some hasUniformBuffer => cases hasUniformBuffer <;> rfl
  · intro st id data h
    unfold Podium.updateUniforms
    rw [h]
  · intro st id data hdev
    unfold Podium.updateUniforms
    cases h : jsMapGet st.renderObjects id with
    | none => rfl
    | some hasUniformBuffer =>
      cases hasUniformBuffer
      · rfl
      · rw [hdev]
        rcases h2 : jsMapGet st.uniformBuffers (id ++ "_uniforms") with _ | v <;>
          simp [UniformManager.updateUniformBuffer, h2]
  · intro bufs label data
    rcases h : jsMapGet bufs label with _ | v <;>
      simp [UniformManager.updateUniformBuffer, h]
  · intro bufs label data h dev
    cases dev <;> simp [UniformManager.updateUniformBuffer, h]
  · intro d bufs label size h
    simp [UniformManager.createUniformBuffer, h]

/-- Witness for C4 (amended) at concrete states: unknown effect and
object ids yield false, a missing device or unknown buffer yields
false or null, `setTransform` on an existing object yields true, and
`beginRenderToTexture` throws on a null render target and returns the
pass otherwise. -/
theorem c4_error_reporting_amended_witness :
    PostProcessor.updateEffect failingEffectState "bloom"
      uniformDataTimeOnly = false ∧
    Podium.setTransform failingTransformState "missing"
      UniformManager.createIdentityMatrix = false ∧
    Podium.updateUniforms failingTransformState "missing"
      identityMvpData = false ∧
    Podium.updateUniforms failingTransformState "plane"
      identityMvpData = false ∧
    (UniformManager.updateUniformBuffer false [] "u"
      uniformDataTimeOnly).1 = false ∧
    (UniformManager.updateUniformBuffer true [] "u"
      uniformDataTimeOnly).1 = false ∧
    UniformManager.createUniformBuffer none [] "u" 96 = (none, [], []) ∧
    (UniformManager.createUniformBuffer (some failDevice) [] "u" 96).1 =
      none ∧
    PostProcessor.beginRenderToTexture none (some 3) 7 =
      Except.error "TypeError: null renderTarget has no createView" ∧
    PostProcessor.beginRenderToTexture (some 2) (some 3) 7 =
      Except.ok 7 :=
  ⟨(c4_error_reporting_amended.1 failingEffectState "bloom"
      uniformDataTimeOnly).trans (by decide),
    (c4_error_reporting_amended.2.1 failingTransformState "missing"
      UniformManager.createIdentityMatrix).trans (by decide),
    c4_error_reporting_amended.2.2.1 failingTransformState "missing"
      identityMvpData rfl,
    c4_error_reporting_amended.2.2.2.1 failingTransformState "plane"
      identityMvpData rfl,
    c4_error_reporting_amended.2.2.2.2.1 [] "u" uniformDataTimeOnly,
    c4_error_reporting_amended.2.2.2.2.2.1 [] "u" uniformDataTimeOnly rfl
      true,
    c4_error_reporting_amended.2.2.2.2.2.2.1 [] "u" 96,
    c4_error_reporting_amended.2.2.2.2.2.2.2.1 failDevice [] "u" 96 rfl,
    c4_error_reporting_amended.2.2.2.2.2.2.2.2.1 (some 3) 7,
    c4_error_reporting_amended.2.2.2.2.2.2.2.2.2 2 3 7⟩

/-- C7: with the render guards satisfied, `Podium.render` issues the
draw commands of exactly those render objects whose visible flag is
true, in the mapping's insertion order, and an object with visible set
to false contributes no draw commands. -/
theorem c7_render_draws_exactly_visible_objects
    (objs : List RenderObject) :
    Podium.render true true true objs =
      (objs.filter (fun o => o.visible)).flatMap Podium.renderObjectCmds ∧
    ∀ o ∈ objs, o.visible = false → Podium.renderObjectCmds o = [] := by
  constructor
  · show objs.flatMap Podium.renderObjectCmds = _
    induction objs with
    | nil => rfl
    | cons o rest ih =>
      by_cases h : o.visible <;>
        simp [Podium.renderObjectCmds, h, ih, List.filter_cons]
  · intro o _ h
    simp [Podium.renderObjectCmds, h]

/-- A concrete render-object mapping: "a" visible, "b" invisible. -/
def demoObjects : List RenderObject :=
  [{ id := "a", visible := true }, { id := "b", visible := false }]

/-- Witness for C7 at `demoObjects`: the invisible object "b"
contributes no commands. -/
theorem c7_render_draws_exactly_visible_objects_witness :
    Podium.render true true true demoObjects =
      (demoObjects.filter (fun o => o.visible)).flatMap
        Podium.renderObjectCmds ∧
    ({ id := "b", visible := false } : RenderObject) ∈ demoObjects ∧
    Podium.renderObjectCmds { id := "b", visible := false } = [] :=
  ⟨(c7_render_draws_exactly_visible_objects demoObjects).1,
    by decide,
    (c7_render_draws_exactly_visible_objects demoObjects).2
      { id := "b", visible := false } (by decide) rfl⟩
